import Mathlib

/-!
Verification of the spark-on-k8s submission-and-lifecycle engine against its
natural-language specification.

The repository sources available are `spark_on_k8s/api/apps.py`,
`spark_on_k8s/cli/app.py` and `tests/test_spark_client.py`.  The core client
module (`SparkOnK8S._parse_app_name_and_id`, `SparkOnK8S.submit_app`,
`default_app_id_suffix`, `PodResources`, `ExecutorInstances`) and the utility
modules (`SparkAppManager`, `get_app_status`) are not part of the source tree,
so those operations are modelled from the specification, with the repository's
own test suite (`tests/test_spark_client.py`) pinning their concrete
behaviour.  Everything modelled from the spec is marked as such in its doc
comment.
-/

namespace SparkOnK8S

/-! ## Character classes used by the name resolver and the k8s label pattern -/

/-- Tests whether `c` is a lowercase ASCII letter `a`-`z`. -/
def isLowerAlpha (c : Char) : Bool := 'a' ≤ c && c ≤ 'z'

/-- Tests whether `c` is an ASCII digit `0`-`9`. -/
def isDigitChar (c : Char) : Bool := '0' ≤ c && c ≤ '9'

/-- Tests whether `c` is a lowercase ASCII letter or a digit. -/
def isAlnum (c : Char) : Bool := isLowerAlpha c || isDigitChar c

/-- Tests whether `c` is legal inside a k8s label value: `[a-z0-9-]`. -/
def isClassChar (c : Char) : Bool := isAlnum c || c == '-'

/-- The k8s label-value pattern `[a-z0-9]([-a-z0-9]*[a-z0-9])?`: nonempty,
every character in `[a-z0-9-]`, and the first and last characters
alphanumeric. -/
def matchesK8sPattern (l : List Char) : Bool :=
  !l.isEmpty && isAlnum (l.headD '-') && l.all isClassChar && isAlnum (l.getLastD '-')

/-! ## NameResolver (spec §4.1, behaviour pinned by `test_parse_app_name_and_id`) -/

/-- Lower-case a character and replace it by `-` unless the result is in
`[a-z0-9-]` (the "lower-case; replace every character outside `[a-z0-9-]`
with `-`" sanitization steps of spec §4.1). -/
def normChar (c : Char) : Char :=
  if isAlnum c.toLower || c.toLower == '-' then c.toLower else '-'

/-- Collapse consecutive `-` characters into a single one. -/
def collapseDashes : List Char → List Char
  | [] => []
  | [c] => [c]
  | a :: b :: rest =>
    if a == '-' && b == '-' then collapseDashes (b :: rest)
    else a :: collapseDashes (b :: rest)

/-- Strip trailing `-` characters. -/
def rstripDash (l : List Char) : List Char :=
  (l.reverse.dropWhile (· == '-')).reverse

/-- Modelled from the spec: the sanitization pipeline of
`SparkOnK8S._parse_app_name_and_id` (missing `spark_on_k8s/client.py`),
spec §4.1 "Sanitize: lower-case; replace every character outside `[a-z0-9-]`
with `-`; collapse consecutive `-`; strip leading/trailing `-`/non-alphanumeric",
with the leading strip removing every leading non-letter (digits included),
as pinned by the repository test case
`app_name_without_suffix_starts_with_numbers`
(`"12345-name-starts-with-numbers"` sanitizes to
`"name-starts-with-numbers"`). -/
def sanitize (l : List Char) : List Char :=
  rstripDash ((collapseDashes (l.map normChar)).dropWhile (fun c => !(isLowerAlpha c)))

/-- The sanitization pipeline exactly as the spec's words describe it
(spec §4.1): the ends are stripped only of `-`/non-alphanumeric characters,
so leading digits survive.  Used to compare the spec's wording against the
behaviour the repository's tests pin (see `sanitize`). -/
def sanitizeSpecWords (l : List Char) : List Char :=
  rstripDash ((collapseDashes (l.map normChar)).dropWhile (fun c => !(isAlnum c)))

/-- Modelled from the spec: the base-name truncation bound of
`_parse_app_name_and_id` (missing `spark_on_k8s/client.py`).  Spec §4.1 says
"`id` = sanitized base truncated to `63 - length(suffix)` characters", where
per the spec's own example (§8, "a 14-character timestamp suffix truncates
the base to `63-14=49` characters") `length(suffix)` counts the suffix
without its leading `-` separator; the repository test case
`app_name_with_suffix_long` pins the truncated base of a long name at 49
characters for the 15-character suffix string `"-20240114121231"`.
Hence the bound is 63 for an empty suffix string and `64 - length` for a
nonempty one. -/
def truncBound (sfx : List Char) : Nat :=
  if sfx.isEmpty then 63 else 64 - sfx.length

/-- Modelled from the spec: `SparkOnK8S._parse_app_name_and_id` (missing
`spark_on_k8s/client.py`; spec §4.1), behaviour pinned by the seventeen
cases of `test_parse_app_name_and_id`.  The injectable suffix-generating
function is represented by the string it returns.  A null or empty raw name
falls back to the fixed literal `"spark-app"` with the suffix appended to
both the display name and the id; otherwise the raw name is sanitized,
truncated to `truncBound`, stripped of trailing dashes, and the suffix is
appended to form the id. -/
def parseAppNameAndId (appName : Option String) (sfx : String) : String × String :=
  match appName with
  | none => (⟨"spark-app".data ++ sfx.data⟩, ⟨"spark-app".data ++ sfx.data⟩)
  | some s =>
    if s = "" then (⟨"spark-app".data ++ sfx.data⟩, ⟨"spark-app".data ++ sfx.data⟩)
    else
      let t := rstripDash ((sanitize s.data).take (truncBound sfx.data))
      (⟨t⟩, ⟨t ++ sfx.data⟩)

/-- Modelled from the spec: `default_app_id_suffix` (missing
`spark_on_k8s/client.py`) returns the current timestamp formatted as 14
digits `%Y%m%d%H%M%S`, prefixed with `-`; the timestamp is a parameter here.
The repository tests freeze time at 2024-01-14 12:12:31, i.e.
`"20240114121231"`. -/
def defaultAppIdSuffix (ts : String) : String := ⟨'-' :: ts.data⟩

/-- The frozen timestamp used by the repository tests. -/
def frozenTs : String := "20240114121231"

/-! ## ManifestBuilder (spec §4.2, behaviour pinned by `test_submit_app` and
`test_submit_app_with_env_configurations`) -/

/-- Modelled from the spec: the `PodResources` value object of the missing
`spark_on_k8s/client.py` — driver/executor resource request
`{cpu, memory, memoryOverhead}` (spec §3), with memory values in mebibytes. -/
structure PodResources where
  cpu : Nat
  memory : Nat
  memory_overhead : Nat
deriving DecidableEq, Repr

/-- Modelled from the spec: the `ExecutorInstances` value object of the
missing `spark_on_k8s/client.py` — executor scaling bounds
`{min, max, initial}` (spec §3). -/
structure ExecutorInstances where
  min : Nat
  max : Nat
  initial : Nat
deriving DecidableEq, Repr

/-- Modelled from the spec: the `SubmissionOptions` of `submit_app` (spec §3).
The injectable suffix-generating function is represented by the string it
returns; the image-pull policy is the literal string passed through
(`Always`/`Never`/`IfNotPresent`); `sparkConf` holds the free-form
configuration overrides in caller-insertion order. -/
structure SubmitOptions where
  image : String
  appPath : String
  ns : String
  serviceAccount : String
  appName : Option String
  appIdSuffix : String
  sparkConf : List (String × String)
  className : Option String
  appArguments : List String
  imagePullPolicy : String
  uiReverseProxy : Bool
  driverResources : PodResources
  executorResources : Option PodResources
  executorInstances : Option ExecutorInstances

/-- Render a memory amount as the mebibyte string used on the command line. -/
def mebi (n : Nat) : String := toString n ++ "m"

/-- One `--conf key=value` pair of the launch command line. -/
def confPair (k v : String) : List String := ["--conf", k ++ "=" ++ v]

/-- Modelled from the spec: when no executor resource request is given, the
executor request is derived from the driver's — "each memory value is halved"
(spec §4.2, §8: "the derived executor memory split per the fixed ratio";
pinned by `test_submit_app`, where driver `{cpu:1, memory:2048,
memoryOverhead:1024}` yields executor memory `1024m`, overhead `512m` and
executor cores `1`). -/
def derivedExecutorResources (driver : PodResources) : PodResources :=
  { cpu := driver.cpu, memory := driver.memory / 2,
    memory_overhead := driver.memory_overhead / 2 }

/-- The fixed cluster endpoint of the `--master` flag. -/
def masterUrl : String := "k8s://https://kubernetes.default.svc.cluster.local:443"

/-- The `spark.ui.proxyBase`/`spark.ui.proxyRedirectUri` configuration pairs
emitted when the reverse-proxy flag is enabled. -/
def uiProxyChunk (ns appId : String) : List String :=
  confPair "spark.ui.proxyBase" ("/webserver/ui/" ++ ns ++ "/" ++ appId)
  ++ confPair "spark.ui.proxyRedirectUri" "/"

/-- The dynamic-allocation configuration pairs emitted when executor scaling
bounds are given. -/
def dynAllocChunk (e : ExecutorInstances) : List String :=
  confPair "spark.dynamicAllocation.enabled" "true"
  ++ confPair "spark.dynamicAllocation.shuffleTracking.enabled" "true"
  ++ confPair "spark.dynamicAllocation.minExecutors" (toString e.min)
  ++ confPair "spark.dynamicAllocation.maxExecutors" (toString e.max)
  ++ confPair "spark.dynamicAllocation.initialExecutors" (toString e.initial)

/-- Modelled from the spec: the ordered argument list of the driver container
built by `SparkOnK8S.submit_app` (missing `spark_on_k8s/client.py`; spec
§4.2), pinned exactly by the argv assertions of `test_submit_app` and
`test_submit_app_with_env_configurations`: role token, master flag, the
fixed sequence of `--conf` pairs, conditional reverse-proxy and
dynamic-allocation pairs, user configuration overrides in insertion order,
the optional entry-point class flag, the application artifact path and the
user application arguments. -/
def submitAppArgs (o : SubmitOptions) : List String :=
  let nameId := parseAppNameAndId o.appName o.appIdSuffix
  let appName := nameId.1
  let appId := nameId.2
  let execRes := o.executorResources.getD (derivedExecutorResources o.driverResources)
  ["driver", "--master", masterUrl]
  ++ confPair "spark.app.name" appName
  ++ confPair "spark.app.id" appId
  ++ confPair "spark.kubernetes.namespace" o.ns
  ++ confPair "spark.kubernetes.authenticate.driver.serviceAccountName" o.serviceAccount
  ++ confPair "spark.kubernetes.container.image" o.image
  ++ confPair "spark.driver.host" appId
  ++ confPair "spark.driver.port" "7077"
  ++ confPair "spark.kubernetes.driver.pod.name" (appId ++ "-driver")
  ++ confPair "spark.kubernetes.executor.podNamePrefix" appId
  ++ confPair "spark.kubernetes.container.image.pullPolicy" o.imagePullPolicy
  ++ confPair "spark.driver.memory" (mebi o.driverResources.memory)
  ++ confPair "spark.executor.cores" (toString execRes.cpu)
  ++ confPair "spark.executor.memory" (mebi execRes.memory)
  ++ confPair "spark.executor.memoryOverhead" (mebi execRes.memory_overhead)
  ++ (if o.uiReverseProxy then uiProxyChunk o.ns appId else [])
  ++ (match o.executorInstances with
      | some e => dynAllocChunk e
      | none => [])
  ++ (o.sparkConf.map (fun kv => confPair kv.1 kv.2)).flatten
  ++ (match o.className with
      | some c => ["--class", c]
      | none => [])
  ++ [o.appPath]
  ++ o.appArguments

/-- The exact submission options of `test_submit_app`. -/
def testSubmitOptions : SubmitOptions :=
  { image := "pyspark-job"
    appPath := "local:///opt/spark/work-dir/job.py"
    ns := "spark"
    serviceAccount := "spark"
    appName := some "pyspark-job-example"
    appIdSuffix := defaultAppIdSuffix frozenTs
    sparkConf := []
    className := none
    appArguments := ["100000"]
    imagePullPolicy := "Never"
    uiReverseProxy := true
    driverResources := { cpu := 1, memory := 2048, memory_overhead := 1024 }
    executorResources := none
    executorInstances := some { min := 2, max := 5, initial := 5 } }

/-- The exact submission options of `test_submit_app_with_env_configurations`
(after the environment variables are parsed into options). -/
def testEnvSubmitOptions : SubmitOptions :=
  { image := "test-spark-on-k8s-docker-image"
    appPath := "/path/to/app.py"
    ns := "test-namespace"
    serviceAccount := "test-service-account"
    appName := some "test-spark-app"
    appIdSuffix := defaultAppIdSuffix frozenTs
    sparkConf := [("spark.conf1.key", "spark.conf1.value"),
                  ("spark.conf2.key", "spark.conf2.value")]
    className := none
    appArguments := ["arg1", "arg2"]
    imagePullPolicy := "Always"
    uiReverseProxy := true
    driverResources := { cpu := 1, memory := 1024, memory_overhead := 512 }
    executorResources := some { cpu := 1, memory := 718, memory_overhead := 512 }
    executorInstances := some { min := 2, max := 5, initial := 5 } }

/-! ## StatusMapper (spec §4.3; `get_app_status` lives in the missing
`spark_on_k8s/utils/app_waiter.py`) -/

/-- The logical application status enum (spec §4.3). -/
inductive SparkAppStatus where
  | Waiting
  | Running
  | Succeeded
  | Failed
  | Unknown
  | NotFound
deriving DecidableEq, Repr

/-- Modelled from the spec: `get_app_status` (missing
`spark_on_k8s/utils/app_waiter.py`; spec §4.3) — a pure function of the
latest observed container phase; unrecognized phases map to `Unknown`. -/
def get_app_status (phase : String) : SparkAppStatus :=
  if phase = "Pending" then .Waiting
  else if phase = "Running" then .Running
  else if phase = "Succeeded" then .Succeeded
  else if phase = "Failed" then .Failed
  else .Unknown

/-- Terminal statuses (spec §4.3): `Succeeded`, `Failed`, `NotFound`. -/
def SparkAppStatus.isTerminal : SparkAppStatus → Bool
  | .Succeeded | .Failed | .NotFound => true
  | _ => false

/-! ## The cluster's workload objects, as seen by the listing endpoint and
the app manager -/

/-- A driver pod as observed from the cluster: namespace, metadata name,
labels and the container phase reported by the cluster. -/
structure Pod where
  ns : String
  name : String
  labels : List (String × String)
  phase : String
deriving DecidableEq, Repr

/-- First label value for a key, as `dict.get` on `pod.metadata.labels`. -/
def lookupLabel (labels : List (String × String)) (k : String) : Option String :=
  (labels.find? (fun kv => kv.1 == k)).map (fun kv => kv.2)

/-- The truthy strings pydantic coerces to `True` when the `spark-ui-proxy`
label value is validated into the `SparkApp.spark_ui_proxy` boolean field;
a missing label yields the field default `False` (coercion errors on other
strings are not modelled). -/
def parseProxyLabel : Option String → Bool
  | none => false
  | some s => s.toLower ∈ ["true", "t", "yes", "y", "on", "1"]

/-! ## The listing endpoint (`spark_on_k8s/api/apps.py`) -/

/-- An entry of the listing view: the `SparkApp` pydantic model of
`spark_on_k8s/api/apps.py`. -/
structure SparkApp where
  app_id : String
  status : SparkAppStatus
  spark_ui_proxy : Bool
deriving DecidableEq, Repr

/-- The cluster API's `listResources` primitive (spec §6): the pods of a
namespace matching a single `key=value` label selector. -/
def listResources (pods : List Pod) (ns k v : String) : List Pod :=
  pods.filter (fun p => p.ns == ns && lookupLabel p.labels k == some v)

/-- The `SparkApp` entry built for one driver pod by `list_apps`
(`spark_on_k8s/api/apps.py` lines 32-36): the app id from the
`spark-app-id` label, falling back to the pod's own metadata name; the
status from `get_app_status`; the proxy flag from the `spark-ui-proxy`
label. -/
def mkSparkAppEntry (p : Pod) : SparkApp :=
  { app_id := (lookupLabel p.labels "spark-app-id").getD p.name
    status := get_app_status p.phase
    spark_ui_proxy := parseProxyLabel (lookupLabel p.labels "spark-ui-proxy") }

/-- The listing operation `list_apps` (`spark_on_k8s/api/apps.py` lines 24-38): list the pods of
the namespace with label selector `spark-role=driver` and map each one to a
`SparkApp` entry.  The cluster's pod collection is an explicit argument. -/
def list_apps (ns : String) (pods : List Pod) : List SparkApp :=
  (listResources pods ns "spark-role" "driver").map mkSparkAppEntry

/-! ## AppManager delete (spec §4.6; `SparkAppManager.delete_app` lives in
the missing `spark_on_k8s/utils/app_manager.py`; its CLI caller is
`spark_on_k8s/cli/app.py` lines 60-68) -/

/-- The typed errors of the app manager (spec §7). -/
inductive AppManagerError where
  | preconditionError
  | notFoundError
deriving DecidableEq, Repr

/-- The cluster state the app manager acts on: the driver pods and the
network endpoints (services), each identified by namespace and name. -/
structure ClusterState where
  pods : List Pod
  services : List (String × String)
deriving Repr

/-- The cluster API's `getResource` primitive for pods (spec §6). -/
def getPod (st : ClusterState) (ns name : String) : Option Pod :=
  st.pods.find? (fun p => p.ns == ns && p.name == name)

/-- The cluster API's `getResource` primitive for services (spec §6). -/
def getService (st : ClusterState) (ns name : String) : Option (String × String) :=
  st.services.find? (fun s => s.1 == ns && s.2 == name)

/-- Modelled from the spec: the status query of the app manager (missing
`spark_on_k8s/utils/app_manager.py`; spec §4.6): derive the status of the
app's driver workload (named `appId ++ "-driver"`, as pinned by
`test_submit_app`) from the current cluster snapshot; `NotFound` when the
workload is absent. -/
def app_status (st : ClusterState) (ns appId : String) : SparkAppStatus :=
  match getPod st ns (appId ++ "-driver") with
  | none => .NotFound
  | some p => get_app_status p.phase

/-- Modelled from the spec: `SparkAppManager.delete_app` (missing
`spark_on_k8s/utils/app_manager.py`; spec §4.6): removes the driver
workload and the paired network endpoint; if `force` is false it refuses
with `PreconditionError` when the current status is non-terminal,
performing no deletion; `force=true` bypasses the check. -/
def delete_app (st : ClusterState) (ns appId : String) (force : Bool) :
    Except AppManagerError ClusterState :=
  if !force && !(app_status st ns appId).isTerminal then
    .error .preconditionError
  else
    .ok { pods := st.pods.filter
            (fun p => !(p.ns == ns && p.name == appId ++ "-driver"))
          services := st.services.filter
            (fun s => !(s.1 == ns && s.2 == appId)) }

/-! ## CLI submit (`spark_on_k8s/cli/app.py` lines 96-126) -/

/-- The post-submission behavior mode the CLI `submit` command passes to
`submit_app` (`spark_on_k8s/cli/app.py` line 122):
`"print" if logs else "wait" if wait else "no_wait"`. -/
def submitAppWaiterMode (logs wait : Bool) : String :=
  if logs then "print" else if wait then "wait" else "no_wait"

/-- The segment of the launch command line before the optional reverse-proxy
configuration pairs: role token, master flag and the fixed `--conf` pairs up
to the executor memory overhead. -/
def argsPre (o : SubmitOptions) : List String :=
  let nameId := parseAppNameAndId o.appName o.appIdSuffix
  let appName := nameId.1
  let appId := nameId.2
  let execRes := o.executorResources.getD (derivedExecutorResources o.driverResources)
  ["driver", "--master", masterUrl]
  ++ confPair "spark.app.name" appName
  ++ confPair "spark.app.id" appId
  ++ confPair "spark.kubernetes.namespace" o.ns
  ++ confPair "spark.kubernetes.authenticate.driver.serviceAccountName" o.serviceAccount
  ++ confPair "spark.kubernetes.container.image" o.image
  ++ confPair "spark.driver.host" appId
  ++ confPair "spark.driver.port" "7077"
  ++ confPair "spark.kubernetes.driver.pod.name" (appId ++ "-driver")
  ++ confPair "spark.kubernetes.executor.podNamePrefix" appId
  ++ confPair "spark.kubernetes.container.image.pullPolicy" o.imagePullPolicy
  ++ confPair "spark.driver.memory" (mebi o.driverResources.memory)
  ++ confPair "spark.executor.cores" (toString execRes.cpu)
  ++ confPair "spark.executor.memory" (mebi execRes.memory)
  ++ confPair "spark.executor.memoryOverhead" (mebi execRes.memory_overhead)

/-- The segment of the launch command line after the optional reverse-proxy
configuration pairs: dynamic-allocation pairs, user configuration overrides,
optional entry-point class flag, artifact path and application arguments. -/
def argsPost (o : SubmitOptions) : List String :=
  (match o.executorInstances with
   | some e => dynAllocChunk e
   | none => [])
  ++ (o.sparkConf.map (fun kv => confPair kv.1 kv.2)).flatten
  ++ (match o.className with
      | some c => ["--class", c]
      | none => [])
  ++ [o.appPath]
  ++ o.appArguments

end SparkOnK8S

namespace SparkOnK8S

/-! ## Validation of the name-resolver model against the repository tests -/

/-- The seventeen parametrized cases of `test_parse_app_name_and_id`,
pinning `parseAppNameAndId` exactly. -/
theorem parse_app_name_and_id_testcases_pinned :
    parseAppNameAndId (some "spark-app-name") "" = ("spark-app-name", "spark-app-name") ∧
    parseAppNameAndId (some "spark-app-name") (defaultAppIdSuffix frozenTs)
      = ("spark-app-name", "spark-app-name-20240114121231") ∧
    parseAppNameAndId
      (some "some-very-long-name-which-is-not-allowed-by-k8s-which-is-why-we-need-to-truncate-it") ""
      = ("some-very-long-name-which-is-not-allowed-by-k8s-which-is-why-we",
         "some-very-long-name-which-is-not-allowed-by-k8s-which-is-why-we") ∧
    parseAppNameAndId
      (some "some-very-long-name-which-is-not-allowed-by-k8s-which-is-why-we-need-to-truncate-it")
      (defaultAppIdSuffix frozenTs)
      = ("some-very-long-name-which-is-not-allowed-by-k8s-w",
         "some-very-long-name-which-is-not-allowed-by-k8s-w-20240114121231") ∧
    parseAppNameAndId (some "some-name-ends-with-invalid-character-") ""
      = ("some-name-ends-with-invalid-character", "some-name-ends-with-invalid-character") ∧
    parseAppNameAndId (some "some-name-ends-with-invalid-character-") (defaultAppIdSuffix frozenTs)
      = ("some-name-ends-with-invalid-character",
         "some-name-ends-with-invalid-character-20240114121231") ∧
    parseAppNameAndId (some "some.invalid_characters-in/the-name") ""
      = ("some-invalid-characters-in-the-name", "some-invalid-characters-in-the-name") ∧
    parseAppNameAndId (some "some.invalid_characters-in/the-name") (defaultAppIdSuffix frozenTs)
      = ("some-invalid-characters-in-the-name", "some-invalid-characters-in-the-name-20240114121231") ∧
    parseAppNameAndId (some "name.with_8.numerical-characters/12345678") ""
      = ("name-with-8-numerical-characters-12345678", "name-with-8-numerical-characters-12345678") ∧
    parseAppNameAndId (some "name.with_8.numerical-characters/12345678") (defaultAppIdSuffix frozenTs)
      = ("name-with-8-numerical-characters-12345678",
         "name-with-8-numerical-characters-12345678-20240114121231") ∧
    parseAppNameAndId (some "./-_---name-with-trailing-and-leading-dashes-_-_-,;") ""
      = ("name-with-trailing-and-leading-dashes", "name-with-trailing-and-leading-dashes") ∧
    parseAppNameAndId (some "./-_---name-with-trailing-and-leading-dashes-_-_-,;")
      (defaultAppIdSuffix frozenTs)
      = ("name-with-trailing-and-leading-dashes", "name-with-trailing-and-leading-dashes-20240114121231") ∧
    parseAppNameAndId (some "12345-name-starts-with-numbers") ""
      = ("name-starts-with-numbers", "name-starts-with-numbers") ∧
    parseAppNameAndId (some "12345-name-starts-with-numbers") (defaultAppIdSuffix frozenTs)
      = ("name-starts-with-numbers", "name-starts-with-numbers-20240114121231") ∧
    parseAppNameAndId none "" = ("spark-app", "spark-app") ∧
    parseAppNameAndId none (defaultAppIdSuffix frozenTs)
      = ("spark-app-20240114121231", "spark-app-20240114121231") ∧
    parseAppNameAndId (some "custom-app-id-suffix") "-custom-app-id-suffix"
      = ("custom-app-id-suffix", "custom-app-id-suffix-custom-app-id-suffix") := by
  decide

/-! ## Invariants of the name resolver -/

/-- A well-formed suffix string: either empty, or a `-` separator followed by
a nonempty run of `[a-z0-9]` characters (as the default timestamp suffix and
the custom suffixes of the tests are). -/
def goodSuffix (sfx : List Char) : Prop :=
  sfx = [] ∨ ∃ rest, sfx = '-' :: rest ∧ rest ≠ [] ∧ ∀ c ∈ rest, isAlnum c = true

theorem isClassChar_normChar (c : Char) : isClassChar (normChar c) = true := by
  simp only [normChar]
  split
  · next h => simpa [isClassChar] using h
  · decide

theorem isAlnum_ne_dash {c : Char} (h : isAlnum c = true) : (c == '-') = false := by
  cases hbeq : c == '-'
  · rfl
  · exact absurd h (by rw [eq_of_beq hbeq]; decide)

theorem isAlnum_of_isLowerAlpha {c : Char} (h : isLowerAlpha c = true) : isAlnum c = true := by
  simp [isAlnum, h]

theorem collapseDashes_sublist : ∀ l : List Char, (collapseDashes l).Sublist l
  | [] => by simp [collapseDashes]
  | [c] => by simp [collapseDashes]
  | a :: b :: rest => by
    simp only [collapseDashes]
    split
    · exact List.Sublist.cons a (collapseDashes_sublist (b :: rest))
    · exact List.Sublist.cons₂ a (collapseDashes_sublist (b :: rest))

theorem rstripDash_sublist (l : List Char) : (rstripDash l).Sublist l := by
  have h := (List.dropWhile_sublist (l := l.reverse) (· == '-')).reverse
  rw [List.reverse_reverse] at h
  exact h

theorem sanitize_sublist (l : List Char) : (sanitize l).Sublist (l.map normChar) :=
  (rstripDash_sublist _).trans
    ((List.dropWhile_sublist _).trans (collapseDashes_sublist (l.map normChar)))

theorem isClassChar_of_mem_sanitize {c : Char} {l : List Char} (h : c ∈ sanitize l) :
    isClassChar c = true := by
  rcases List.mem_map.1 ((sanitize_sublist l).subset h) with ⟨a, _, rfl⟩
  exact isClassChar_normChar a

theorem dropWhile_head_false (p : Char → Bool) (l : List Char) (b : Char) (t : List Char)
    (he : l.dropWhile p = b :: t) : p b = false := by
  have h2 := List.head?_dropWhile_not p l
  rw [he] at h2
  simpa using h2

/-- Stripping trailing dashes from a nonempty list yields either the empty
list or a list whose last element is not a dash. -/
theorem rstripDash_getLast_ne_dash (l : List Char) (h : rstripDash l ≠ []) :
    ∃ c, (rstripDash l).getLast? = some c ∧ (c == '-') = false := by
  have hm : l.reverse.dropWhile (· == '-') ≠ [] := by
    intro he
    apply h
    show (l.reverse.dropWhile (· == '-')).reverse = []
    rw [he, List.reverse_nil]
  refine ⟨(l.reverse.dropWhile (· == '-')).head hm, ?_, List.head_dropWhile_not _ _ hm⟩
  show ((l.reverse.dropWhile (· == '-')).reverse).getLast? = _
  rw [List.getLast?_reverse, List.head?_eq_head hm]

/-- Stripping trailing dashes preserves a non-dash head. -/
theorem rstripDash_cons_of_ne (a : Char) (t : List Char) (ha : (a == '-') = false) :
    ∃ t', rstripDash (a :: t) = a :: t' := by
  show ∃ t', ((a :: t).reverse.dropWhile (· == '-')).reverse = a :: t'
  rw [List.reverse_cons, List.dropWhile_append]
  split
  · exact ⟨[], by simp [List.dropWhile_cons, ha]⟩
  · exact ⟨(t.reverse.dropWhile (· == '-')).reverse, by rw [List.reverse_append]; simp⟩

/-- A nonempty sanitized name starts with a lowercase letter. -/
theorem sanitize_head_isLower (l : List Char) (h : sanitize l ≠ []) :
    ∃ b t', sanitize l = b :: t' ∧ isLowerAlpha b = true := by
  rcases he : (collapseDashes (l.map normChar)).dropWhile (fun c => !(isLowerAlpha c))
    with _ | ⟨b, t⟩
  · refine absurd ?_ h
    show rstripDash ((collapseDashes (l.map normChar)).dropWhile (fun c => !(isLowerAlpha c))) = []
    rw [he]
    rfl
  · have hb : isLowerAlpha b = true := by
      simpa using dropWhile_head_false _ _ _ _ he
    obtain ⟨t', ht'⟩ := rstripDash_cons_of_ne b t (isAlnum_ne_dash (isAlnum_of_isLowerAlpha hb))
    refine ⟨b, t', ?_, hb⟩
    show rstripDash ((collapseDashes (l.map normChar)).dropWhile (fun c => !(isLowerAlpha c)))
      = b :: t'
    rw [he]
    exact ht'

/-- The structure of the resolver's output on a nonempty raw name with a
nonempty sanitized form: a truncated base starting with a lowercase letter,
with the suffix appended to form the id. -/
theorem parse_some_structure (s : String) (sfx : String) (hs : ¬(s = ""))
    (hsan : sanitize s.data ≠ []) (hB : 1 ≤ truncBound sfx.data) :
    ∃ b t',
      (parseAppNameAndId (some s) sfx).1.data = b :: t' ∧
      (parseAppNameAndId (some s) sfx).2.data = (b :: t') ++ sfx.data ∧
      isLowerAlpha b = true ∧
      b :: t' = rstripDash ((sanitize s.data).take (truncBound sfx.data)) := by
  obtain ⟨b, rest, hsb, hlb⟩ := sanitize_head_isLower s.data hsan
  obtain ⟨n, hn⟩ : ∃ n, truncBound sfx.data = n + 1 := ⟨truncBound sfx.data - 1, by omega⟩
  have htake : (sanitize s.data).take (truncBound sfx.data) = b :: rest.take n := by
    rw [hsb, hn, List.take_succ_cons]
  obtain ⟨t', ht'⟩ :=
    rstripDash_cons_of_ne b (rest.take n) (isAlnum_ne_dash (isAlnum_of_isLowerAlpha hlb))
  refine ⟨b, t', ?_, ?_, hlb, ?_⟩
  · simp only [parseAppNameAndId, if_neg hs]
    rw [htake, ht']
  · simp only [parseAppNameAndId, if_neg hs]
    rw [htake, ht']
  · rw [htake, ht']

/-- Characters and ends of the truncated base produced by the resolver. -/
theorem parse_base_good (s : String) (sfx : String) (b : Char) (t' : List Char)
    (hbt : b :: t' = rstripDash ((sanitize s.data).take (truncBound sfx.data))) :
    (∀ c ∈ b :: t', isClassChar c = true) ∧
    isAlnum ((b :: t').getLastD '-') = true ∧
    (b :: t').length ≤ truncBound sfx.data := by
  have hsub : (b :: t').Sublist ((sanitize s.data).take (truncBound sfx.data)) := by
    rw [hbt]; exact rstripDash_sublist _
  have hclass : ∀ c ∈ b :: t', isClassChar c = true := fun c hc =>
    isClassChar_of_mem_sanitize ((List.take_sublist _ _).subset (hsub.subset hc))
  refine ⟨hclass, ?_, ?_⟩
  · obtain ⟨c, hc, hcd⟩ := rstripDash_getLast_ne_dash
      ((sanitize s.data).take (truncBound sfx.data)) (by rw [← hbt]; simp)
    have hmem : c ∈ b :: t' := by
      rw [hbt]; exact List.mem_of_mem_getLast? (by rw [hc]; rfl)
    have h4 : isAlnum c = true := by
      have h3 := hclass c hmem
      simp only [isClassChar, Bool.or_eq_true] at h3
      rcases h3 with h4 | h4
      · exact h4
      · rw [hcd] at h4
        exact absurd h4 (by simp)
    rw [hbt, List.getLastD_eq_getLast?, hc, Option.getD_some]
    exact h4
  · calc (b :: t').length ≤ ((sanitize s.data).take (truncBound sfx.data)).length :=
          hsub.length_le
      _ ≤ truncBound sfx.data := by rw [List.length_take]; omega

/-- A list starting with an alphanumeric character, made of `[a-z0-9-]`
characters and ending alphanumerically, followed by a well-formed suffix,
matches the k8s label pattern. -/
theorem matchesK8sPattern_append (b : Char) (t' sfx : List Char)
    (hb : isAlnum b = true)
    (hclass : ∀ c ∈ b :: t', isClassChar c = true)
    (hlast : isAlnum ((b :: t').getLastD '-') = true)
    (hsfx : goodSuffix sfx) :
    matchesK8sPattern ((b :: t') ++ sfx) = true := by
  rcases hsfx with rfl | ⟨rest, rfl, hne, hall⟩
  · rw [List.append_nil]
    simp only [matchesK8sPattern, Bool.and_eq_true]
    exact ⟨⟨⟨by simp, by simpa using hb⟩, List.all_eq_true.2 hclass⟩, hlast⟩
  · rcases rest with _ | ⟨r, rs⟩
    · exact absurd rfl hne
    · obtain ⟨x, hx⟩ : ∃ x, (r :: rs).getLast? = some x := by
        rcases hx : (r :: rs).getLast? with _ | x
        · exact absurd (List.getLast?_eq_none_iff.1 hx) (by simp)
        · exact ⟨x, rfl⟩
      have hxmem : x ∈ r :: rs := List.mem_of_mem_getLast? (by rw [hx]; rfl)
      simp only [matchesK8sPattern, Bool.and_eq_true]
      refine ⟨⟨⟨by simp, by simpa using hb⟩, ?_⟩, ?_⟩
      · rw [List.all_eq_true]
        intro c hc
        rcases List.mem_append.1 hc with hc | hc
        · exact hclass c hc
        · rcases List.mem_cons.1 hc with rfl | hc
          · decide
          · simp [isClassChar, hall c hc]
      · rw [List.getLastD_eq_getLast?, List.getLast?_append]
        have : ('-' :: r :: rs).getLast? = some x := by
          rw [List.getLast?_cons_cons, hx]
        rw [this, Option.or_some, Option.getD_some]
        exact hall x hxmem

/-- Extract the last-character condition from the pattern. -/
theorem pattern_last {l : List Char} (h : matchesK8sPattern l = true) :
    isAlnum (l.getLastD '-') = true := by
  simp only [matchesK8sPattern, Bool.and_eq_true] at h
  exact h.2

/-- Properties of the default `"spark-app" ++ suffix` identifier produced for
a null or empty raw name. -/
theorem default_pair_good (sfx : String) (hgood : goodSuffix sfx.data)
    (hlen : sfx.length ≤ 55) :
    matchesK8sPattern ("spark-app".data ++ sfx.data) = true ∧
    ("spark-app".data ++ sfx.data).length ≤ 64 ∧
    (sfx = "" → ("spark-app".data ++ sfx.data).length ≤ 63) := by
  have hpat : matchesK8sPattern ("spark-app".data ++ sfx.data) = true := by
    have h9 : "spark-app".data = 's' :: "park-app".data := rfl
    rw [h9]
    exact matchesK8sPattern_append 's' "park-app".data sfx.data (by decide) (by decide)
      (by decide) hgood
  have hsl : sfx.data.length = sfx.length := rfl
  refine ⟨hpat, ?_, fun he => ?_⟩
  · rw [List.length_append]
    have h9 : "spark-app".data.length = 9 := rfl
    omega
  · subst he
    decide

/-! ## Claim theorems: name resolver -/

/-- C1 counterexample: the claim fails as stated.  At the long raw name of
the repository's own test `app_name_with_suffix_long` with the default
(frozen-time) suffix, the returned id has length 64, exceeding the claimed
bound of 63; for the raw name `"123"` (which sanitizes to the empty string)
with the empty suffix the id is empty and fails the pattern; for an
arbitrary suffix function the pattern and the no-trailing-dash property also
fail (suffix `"-"` leaves a trailing dash, suffix `"UP!"` breaks the
pattern). -/
theorem app_id_legal_cex :
    (parseAppNameAndId
       (some "some-very-long-name-which-is-not-allowed-by-k8s-which-is-why-we-need-to-truncate-it")
       (defaultAppIdSuffix frozenTs)).2.length = 64 ∧
    ¬ (parseAppNameAndId
       (some "some-very-long-name-which-is-not-allowed-by-k8s-which-is-why-we-need-to-truncate-it")
       (defaultAppIdSuffix frozenTs)).2.length ≤ 63 ∧
    matchesK8sPattern (parseAppNameAndId (some "123") "").2.data = false ∧
    ((parseAppNameAndId (some "a") "-").2.data.getLastD ' ' == '-') = true ∧
    matchesK8sPattern (parseAppNameAndId (some "a") "UP!").2.data = false := by
  decide

/-- C1 (amended): for every raw name (or null) and every suffix whose
returned string is well formed (empty, or `-` followed by a nonempty
`[a-z0-9]` run) and of length at most 55, provided the sanitized form of a
non-null, nonempty raw name is nonempty, the returned id matches
`[a-z0-9]([-a-z0-9]*[a-z0-9])?`, has length at most 64 (at most 63 when the
suffix is empty), never ends with `-`, and equals the returned display name
when the suffix is empty. -/
theorem app_id_legal (appName : Option String) (sfx : String)
    (hgood : goodSuffix sfx.data) (hlen : sfx.length ≤ 55)
    (hsan : ∀ s, appName = some s → ¬(s = "") → sanitize s.data ≠ []) :
    matchesK8sPattern (parseAppNameAndId appName sfx).2.data = true ∧
    (parseAppNameAndId appName sfx).2.length ≤ 64 ∧
    (sfx = "" → (parseAppNameAndId appName sfx).2.length ≤ 63) ∧
    ((parseAppNameAndId appName sfx).2.data.getLastD '-' == '-') = false ∧
    (sfx = "" → (parseAppNameAndId appName sfx).2 = (parseAppNameAndId appName sfx).1) := by
  obtain ⟨hdp, hdl, hde⟩ := default_pair_good sfx hgood hlen
  rcases appName with _ | s
  · exact ⟨hdp, hdl, hde, isAlnum_ne_dash (pattern_last hdp), fun _ => rfl⟩
  · by_cases hs : s = ""
    · subst hs
      have hred : parseAppNameAndId (some "") sfx
          = (⟨"spark-app".data ++ sfx.data⟩, ⟨"spark-app".data ++ sfx.data⟩) := by
        simp [parseAppNameAndId]
      rw [hred]
      exact ⟨hdp, hdl, hde, isAlnum_ne_dash (pattern_last hdp), fun _ => rfl⟩
    · have hB : 1 ≤ truncBound sfx.data := by
        have hsl : sfx.data.length = sfx.length := rfl
        simp only [truncBound]
        split
        · omega
        · omega
      obtain ⟨b, t', hname, hid, hlow, hbt⟩ :=
        parse_some_structure s sfx hs (hsan s rfl hs) hB
      obtain ⟨hclass, hlast, hblen⟩ := parse_base_good s sfx b t' hbt
      have hpat : matchesK8sPattern (parseAppNameAndId (some s) sfx).2.data = true := by
        rw [hid]
        exact matchesK8sPattern_append b t' sfx.data (isAlnum_of_isLowerAlpha hlow)
          hclass hlast hgood
      have hsl : sfx.data.length = sfx.length := rfl
      have hlength : (parseAppNameAndId (some s) sfx).2.length
          = (b :: t').length + sfx.data.length := by
        show (parseAppNameAndId (some s) sfx).2.data.length = _
        rw [hid, List.length_append]
      refine ⟨hpat, ?_, fun he => ?_, isAlnum_ne_dash (pattern_last hpat), fun he => ?_⟩
      · rw [hlength]
        by_cases hsd : sfx.data = []
        · have h5 : truncBound sfx.data = 63 := by simp [truncBound, hsd]
          have h6 : sfx.data.length = 0 := by rw [hsd]; rfl
          omega
        · have h5 : truncBound sfx.data = 64 - sfx.data.length := by
            have h6 : sfx.data.isEmpty = false := by
              simpa [List.isEmpty_iff] using hsd
            simp [truncBound, h6]
          omega
      · subst he
        have hsd : ("" : String).data = [] := rfl
        have h5 : truncBound ("" : String).data = 63 := by simp [truncBound, hsd]
        have h6 : ("" : String).data.length = 0 := rfl
        rw [hlength]
        omega
      · subst he
        apply String.ext
        rw [hid, hname]
        exact List.append_nil _

/-- Witness for C1: applied at the test's raw name with the default
(frozen-time) suffix, and with the empty suffix. -/
theorem app_id_legal_witness :
    matchesK8sPattern
      (parseAppNameAndId (some "pyspark-job-example") (defaultAppIdSuffix frozenTs)).2.data
      = true ∧
    (parseAppNameAndId (some "pyspark-job-example") (defaultAppIdSuffix frozenTs)).2.length
      ≤ 64 ∧
    ((parseAppNameAndId (some "pyspark-job-example")
        (defaultAppIdSuffix frozenTs)).2.data.getLastD '-' == '-') = false ∧
    (parseAppNameAndId (some "pyspark-job-example") "").2
      = (parseAppNameAndId (some "pyspark-job-example") "").1 := by
  have h1 := app_id_legal (some "pyspark-job-example") (defaultAppIdSuffix frozenTs)
    (Or.inr ⟨frozenTs.data, rfl, by decide, by decide⟩) (by decide)
    (fun s hs hne => by cases hs; decide)
  have h2 := app_id_legal (some "pyspark-job-example") ""
    (Or.inl rfl) (by decide)
    (fun s hs hne => by cases hs; decide)
  exact ⟨h1.1, h1.2.1, h1.2.2.2.1, h2.2.2.2.2 rfl⟩

/-- C3 counterexample: at the long raw name of the repository test
`app_name_with_suffix_long` with the default 14-digit timestamp suffix, the
final id has length 64, not at most 63 as claimed. -/
theorem truncation_cex :
    (parseAppNameAndId
       (some "some-very-long-name-which-is-not-allowed-by-k8s-which-is-why-we-need-to-truncate-it")
       (defaultAppIdSuffix frozenTs)).1.length = 49 ∧
    (parseAppNameAndId
       (some "some-very-long-name-which-is-not-allowed-by-k8s-which-is-why-we-need-to-truncate-it")
       (defaultAppIdSuffix frozenTs)).2.length = 64 := by
  decide

/-- C3 (amended): for a nonempty raw name whose sanitized form is longer
than the bound and a 14-character timestamp with the default suffix function
(which prefixes the timestamp with `-`), the resolver truncates the base to
`63 - 14 = 49` characters (then strips trailing dashes) before appending the
suffix, and the final id it returns has length at most 64. -/
theorem truncation_before_suffix (raw ts : String) (hts : ts.length = 14)
    (hraw : ¬(raw = "")) (hlong : 49 < (sanitize raw.data).length) :
    (parseAppNameAndId (some raw) (defaultAppIdSuffix ts)).1.data
      = rstripDash ((sanitize raw.data).take 49) ∧
    (parseAppNameAndId (some raw) (defaultAppIdSuffix ts)).1.length ≤ 49 ∧
    (parseAppNameAndId (some raw) (defaultAppIdSuffix ts)).2.data
      = (parseAppNameAndId (some raw) (defaultAppIdSuffix ts)).1.data ++ ('-' :: ts.data) ∧
    (parseAppNameAndId (some raw) (defaultAppIdSuffix ts)).2.length ≤ 64 := by
  have hB : truncBound (defaultAppIdSuffix ts).data = 49 := by
    show truncBound ('-' :: ts.data) = 49
    have h1 : ('-' :: ts.data).length = 15 := by
      rw [List.length_cons]
      have h2 : ts.data.length = 14 := hts
      omega
    simp [truncBound, h1]
  have hname : (parseAppNameAndId (some raw) (defaultAppIdSuffix ts)).1.data
      = rstripDash ((sanitize raw.data).take 49) := by
    simp only [parseAppNameAndId, if_neg hraw]
    rw [hB]
  have hid : (parseAppNameAndId (some raw) (defaultAppIdSuffix ts)).2.data
      = rstripDash ((sanitize raw.data).take 49) ++ ('-' :: ts.data) := by
    simp only [parseAppNameAndId, if_neg hraw]
    rw [hB]
    rfl
  have hnl : (parseAppNameAndId (some raw) (defaultAppIdSuffix ts)).1.length ≤ 49 := by
    show (parseAppNameAndId (some raw) (defaultAppIdSuffix ts)).1.data.length ≤ 49
    rw [hname]
    calc (rstripDash ((sanitize raw.data).take 49)).length
        ≤ ((sanitize raw.data).take 49).length := (rstripDash_sublist _).length_le
      _ ≤ 49 := by rw [List.length_take]; omega
  refine ⟨hname, hnl, by rw [hid, hname], ?_⟩
  show (parseAppNameAndId (some raw) (defaultAppIdSuffix ts)).2.data.length ≤ 64
  rw [hid, List.length_append]
  have h2 : ts.data.length = 14 := hts
  have h3 : (parseAppNameAndId (some raw) (defaultAppIdSuffix ts)).1.data.length ≤ 49 := hnl
  rw [hname] at h3
  simp only [List.length_cons]
  omega

/-- Witness for C3 at the long raw name of `app_name_with_suffix_long` and
the frozen timestamp. -/
theorem truncation_before_suffix_witness :
    (parseAppNameAndId
       (some "some-very-long-name-which-is-not-allowed-by-k8s-which-is-why-we-need-to-truncate-it")
       (defaultAppIdSuffix frozenTs)).1.data
      = rstripDash ((sanitize
          "some-very-long-name-which-is-not-allowed-by-k8s-which-is-why-we-need-to-truncate-it".data).take 49) ∧
    (parseAppNameAndId
       (some "some-very-long-name-which-is-not-allowed-by-k8s-which-is-why-we-need-to-truncate-it")
       (defaultAppIdSuffix frozenTs)).1.length ≤ 49 ∧
    (parseAppNameAndId
       (some "some-very-long-name-which-is-not-allowed-by-k8s-which-is-why-we-need-to-truncate-it")
       (defaultAppIdSuffix frozenTs)).2.length ≤ 64 := by
  have h := truncation_before_suffix
    "some-very-long-name-which-is-not-allowed-by-k8s-which-is-why-we-need-to-truncate-it"
    frozenTs (by decide) (by decide) (by decide)
  exact ⟨h.1, h.2.1, h.2.2.2⟩

/-- C4 counterexample: the spec's sanitize wording (ends stripped only of
`-`/non-alphanumeric characters) leaves `"12345-name-starts-with-numbers"`
unchanged — its sanitized form begins with the digit `1` — yet the resolver
returns display name and id `"name-starts-with-numbers"`, which begin with
`n`: the leading digits are not preserved. -/
theorem sanitize_leading_digit_cex :
    sanitizeSpecWords "12345-name-starts-with-numbers".data
      = "12345-name-starts-with-numbers".data ∧
    isDigitChar ((sanitizeSpecWords "12345-name-starts-with-numbers".data).headD ' ')
      = true ∧
    (parseAppNameAndId (some "12345-name-starts-with-numbers") "").1
      = "name-starts-with-numbers" ∧
    ((parseAppNameAndId (some "12345-name-starts-with-numbers") "").1.data.headD ' ')
      = 'n' := by
  decide

/-- C4 (amended): sanitization lower-cases, replaces characters outside
`[a-z0-9-]` with `-`, collapses consecutive `-`, strips trailing `-`, and
strips every leading character that is not a lowercase letter — dashes and
digits alike (as pinned by the repository test
`app_name_without_suffix_starts_with_numbers`); consequently a nonempty
sanitized form always begins with a lowercase letter, never a digit, and the
raw name `"12345-name-starts-with-numbers"` resolves to
`"name-starts-with-numbers"`. -/
theorem sanitize_strips_leading_non_letters :
    (∀ l : List Char, sanitize l = [] ∨ isLowerAlpha ((sanitize l).headD '-') = true) ∧
    parseAppNameAndId (some "12345-name-starts-with-numbers") ""
      = ("name-starts-with-numbers", "name-starts-with-numbers") ∧
    parseAppNameAndId (some "12345-name-starts-with-numbers") (defaultAppIdSuffix frozenTs)
      = ("name-starts-with-numbers", "name-starts-with-numbers-20240114121231") := by
  refine ⟨fun l => ?_, by decide, by decide⟩
  by_cases h : sanitize l = []
  · exact Or.inl h
  · obtain ⟨b, t', hbt, hb⟩ := sanitize_head_isLower l h
    exact Or.inr (by rw [hbt, List.headD_cons]; exact hb)

/-! ## Claim theorems: manifest builder -/

/-- C2: for the fixed submission options of `test_submit_app`, the driver
container's argument list is exactly the fixed ordered command line asserted
by the test: role token, master flag, one `--conf` pair per setting in the
fixed order, the artifact path and the user arguments, with the unset
entry-point class contributing nothing. -/
theorem submit_app_argv_fixed_order :
    submitAppArgs testSubmitOptions =
      ["driver", "--master", "k8s://https://kubernetes.default.svc.cluster.local:443",
       "--conf", "spark.app.name=pyspark-job-example",
       "--conf", "spark.app.id=pyspark-job-example-20240114121231",
       "--conf", "spark.kubernetes.namespace=spark",
       "--conf", "spark.kubernetes.authenticate.driver.serviceAccountName=spark",
       "--conf", "spark.kubernetes.container.image=pyspark-job",
       "--conf", "spark.driver.host=pyspark-job-example-20240114121231",
       "--conf", "spark.driver.port=7077",
       "--conf", "spark.kubernetes.driver.pod.name=pyspark-job-example-20240114121231-driver",
       "--conf", "spark.kubernetes.executor.podNamePrefix=pyspark-job-example-20240114121231",
       "--conf", "spark.kubernetes.container.image.pullPolicy=Never",
       "--conf", "spark.driver.memory=2048m",
       "--conf", "spark.executor.cores=1",
       "--conf", "spark.executor.memory=1024m",
       "--conf", "spark.executor.memoryOverhead=512m",
       "--conf", "spark.ui.proxyBase=/webserver/ui/spark/pyspark-job-example-20240114121231",
       "--conf", "spark.ui.proxyRedirectUri=/",
       "--conf", "spark.dynamicAllocation.enabled=true",
       "--conf", "spark.dynamicAllocation.shuffleTracking.enabled=true",
       "--conf", "spark.dynamicAllocation.minExecutors=2",
       "--conf", "spark.dynamicAllocation.maxExecutors=5",
       "--conf", "spark.dynamicAllocation.initialExecutors=5",
       "local:///opt/spark/work-dir/job.py", "100000"] := by
  decide

/-- C5: the driver memory flag emits the driver's memory as a mebibyte
string, and when no executor resource request is given the derived executor
request halves each driver memory value; in particular, for driver
`{cpu:1, memory:2048, memoryOverhead:1024}` the command line carries
`spark.driver.memory=2048m`, `spark.executor.memory=1024m` and
`spark.executor.memoryOverhead=512m`. -/
theorem executor_memory_split_halves_driver (o : SubmitOptions)
    (h : o.executorResources = none) :
    ("spark.driver.memory=" ++ mebi o.driverResources.memory) ∈ submitAppArgs o ∧
    ("spark.executor.memory=" ++ mebi (o.driverResources.memory / 2)) ∈ submitAppArgs o ∧
    ("spark.executor.memoryOverhead=" ++ mebi (o.driverResources.memory_overhead / 2))
      ∈ submitAppArgs o := by
  simp only [submitAppArgs, confPair, h, Option.getD, derivedExecutorResources,
    List.append_assoc, List.mem_append, List.mem_cons]
  refine ⟨?_, ?_, ?_⟩ <;> tauto

/-- Witness for C5 at the options of `test_submit_app`. -/
theorem executor_memory_split_halves_driver_witness :
    testSubmitOptions.executorResources = none ∧
    ("spark.driver.memory=2048m" ∈ submitAppArgs testSubmitOptions ∧
     "spark.executor.memory=1024m" ∈ submitAppArgs testSubmitOptions ∧
     "spark.executor.memoryOverhead=512m" ∈ submitAppArgs testSubmitOptions) :=
  ⟨rfl, by simpa using executor_memory_split_halves_driver testSubmitOptions rfl⟩

/-- C10: the built command line is the pre segment, then — exactly when the
reverse-proxy flag is enabled — the adjacent pair
`spark.ui.proxyBase=/webserver/ui/<namespace>/<app_id>` immediately followed
by `spark.ui.proxyRedirectUri=/`, then the post segment; with the flag
disabled at the options of `test_submit_app`, neither string occurs anywhere
in the command line. -/
theorem ui_reverse_proxy_conf_pairs :
    (∀ o : SubmitOptions,
      (o.uiReverseProxy = true →
        submitAppArgs o =
          argsPre o
          ++ uiProxyChunk o.ns (parseAppNameAndId o.appName o.appIdSuffix).2
          ++ argsPost o) ∧
      (o.uiReverseProxy = false → submitAppArgs o = argsPre o ++ argsPost o)) ∧
    ("spark.ui.proxyBase=/webserver/ui/spark/pyspark-job-example-20240114121231"
        ∉ submitAppArgs { testSubmitOptions with uiReverseProxy := false } ∧
     "spark.ui.proxyRedirectUri=/"
        ∉ submitAppArgs { testSubmitOptions with uiReverseProxy := false }) := by
  refine ⟨fun o => ⟨fun h => ?_, fun h => ?_⟩, by decide, by decide⟩ <;>
    simp [submitAppArgs, argsPre, argsPost, h]

/-- Witness for C10 at the options of `test_submit_app` (flag enabled) and
their flag-disabled variant. -/
theorem ui_reverse_proxy_conf_pairs_witness :
    submitAppArgs testSubmitOptions =
      argsPre testSubmitOptions
      ++ uiProxyChunk "spark" "pyspark-job-example-20240114121231"
      ++ argsPost testSubmitOptions ∧
    submitAppArgs { testSubmitOptions with uiReverseProxy := false } =
      argsPre { testSubmitOptions with uiReverseProxy := false }
      ++ argsPost { testSubmitOptions with uiReverseProxy := false } := by
  constructor
  · have h := (ui_reverse_proxy_conf_pairs.1 testSubmitOptions).1 rfl
    simpa using h
  · exact (ui_reverse_proxy_conf_pairs.1 { testSubmitOptions with uiReverseProxy := false }).2 rfl

/-! ## Claim theorems: listing endpoint -/

/-- C6: for every namespace and cluster pod collection, `list_apps` returns
exactly one entry per pod carrying the driver role label in that namespace
(selected as `spark-role=driver`), and each entry holds that pod's app id
(from the `spark-app-id` label, defaulting to the pod name), its status as
computed by `get_app_status`, and its UI-proxy flag read from the
`spark-ui-proxy` label. -/
theorem list_apps_one_entry_per_driver_pod (ns : String) (pods : List Pod) :
    (list_apps ns pods).length =
      (pods.filter (fun p => p.ns == ns && lookupLabel p.labels "spark-role" == some "driver")).length ∧
    List.Forall₂
      (fun (p : Pod) (a : SparkApp) =>
        a.app_id = (lookupLabel p.labels "spark-app-id").getD p.name ∧
        a.status = get_app_status p.phase ∧
        a.spark_ui_proxy = parseProxyLabel (lookupLabel p.labels "spark-ui-proxy"))
      (pods.filter (fun p => p.ns == ns && lookupLabel p.labels "spark-role" == some "driver"))
      (list_apps ns pods) := by
  constructor
  · simp [list_apps, listResources]
  · rw [list_apps, listResources, List.forall₂_map_right_iff]
    exact List.forall₂_same.2 fun p _ => ⟨rfl, rfl, rfl⟩

/-- Witness for C6 on a concrete two-pod cluster (one driver pod, one
executor pod). -/
theorem list_apps_one_entry_per_driver_pod_witness :
    (list_apps "spark"
        [⟨"spark", "app1-driver", [("spark-role", "driver"), ("spark-app-id", "app1")], "Running"⟩,
         ⟨"spark", "app1-exec-1", [("spark-role", "executor")], "Running"⟩]).length = 1 ∧
    List.Forall₂
      (fun (p : Pod) (a : SparkApp) =>
        a.app_id = (lookupLabel p.labels "spark-app-id").getD p.name ∧
        a.status = get_app_status p.phase ∧
        a.spark_ui_proxy = parseProxyLabel (lookupLabel p.labels "spark-ui-proxy"))
      ([⟨"spark", "app1-driver", [("spark-role", "driver"), ("spark-app-id", "app1")], "Running"⟩,
        ⟨"spark", "app1-exec-1", [("spark-role", "executor")], "Running"⟩].filter
          (fun p => p.ns == "spark" && lookupLabel p.labels "spark-role" == some "driver"))
      (list_apps "spark"
        [⟨"spark", "app1-driver", [("spark-role", "driver"), ("spark-app-id", "app1")], "Running"⟩,
         ⟨"spark", "app1-exec-1", [("spark-role", "executor")], "Running"⟩]) := by
  have h := list_apps_one_entry_per_driver_pod "spark"
    [⟨"spark", "app1-driver", [("spark-role", "driver"), ("spark-app-id", "app1")], "Running"⟩,
     ⟨"spark", "app1-exec-1", [("spark-role", "executor")], "Running"⟩]
  exact ⟨by rw [h.1]; decide, h.2⟩

/-- C8: every driver pod of the namespace contributes its entry to
`list_apps` (it is neither omitted nor an error); when it lacks the
`spark-app-id` label the entry's app id falls back to the pod's own
metadata name, and when it lacks the `spark-ui-proxy` label the entry's
`spark_ui_proxy` field is `false`. -/
theorem list_apps_label_fallbacks (ns : String) (pods : List Pod) (p : Pod)
    (hp : p ∈ pods) (hns : p.ns = ns)
    (hrole : lookupLabel p.labels "spark-role" = some "driver") :
    mkSparkAppEntry p ∈ list_apps ns pods ∧
    (lookupLabel p.labels "spark-app-id" = none → (mkSparkAppEntry p).app_id = p.name) ∧
    (lookupLabel p.labels "spark-ui-proxy" = none →
      (mkSparkAppEntry p).spark_ui_proxy = false) := by
  refine ⟨List.mem_map_of_mem mkSparkAppEntry ?_, fun h => ?_, fun h => ?_⟩
  · exact List.mem_filter.2 ⟨hp, by simp [hns, hrole]⟩
  · simp [mkSparkAppEntry, h]
  · simp [mkSparkAppEntry, parseProxyLabel, h]

/-- Witness for C8 on a concrete driver pod that carries neither the
`spark-app-id` nor the `spark-ui-proxy` label. -/
theorem list_apps_label_fallbacks_witness :
    mkSparkAppEntry ⟨"spark", "my-driver-pod", [("spark-role", "driver")], "Pending"⟩
      ∈ list_apps "spark" [⟨"spark", "my-driver-pod", [("spark-role", "driver")], "Pending"⟩] ∧
    (mkSparkAppEntry ⟨"spark", "my-driver-pod", [("spark-role", "driver")], "Pending"⟩).app_id
      = "my-driver-pod" ∧
    (mkSparkAppEntry ⟨"spark", "my-driver-pod", [("spark-role", "driver")], "Pending"⟩).spark_ui_proxy
      = false := by
  have h := list_apps_label_fallbacks "spark"
    [⟨"spark", "my-driver-pod", [("spark-role", "driver")], "Pending"⟩]
    ⟨"spark", "my-driver-pod", [("spark-role", "driver")], "Pending"⟩
    (by simp) rfl (by decide)
  exact ⟨h.1, h.2.1 (by decide), h.2.2 (by decide)⟩

/-! ## Claim theorems: app manager and CLI -/

/-- C7: deleting an app whose current status is non-terminal (`Waiting`,
`Running` or `Unknown`) with `force=false` fails with `PreconditionError`
and deletes nothing — the driver workload is still retrievable (and no new
cluster state is produced); `force=true` bypasses the status check and
never fails with `PreconditionError`. -/
theorem delete_app_precondition (st : ClusterState) (ns appId : String)
    (h : (app_status st ns appId).isTerminal = false) :
    delete_app st ns appId false = .error .preconditionError ∧
    (getPod st ns (appId ++ "-driver")).isSome ∧
    (∀ st' : ClusterState, delete_app st ns appId false ≠ .ok st') ∧
    delete_app st ns appId true ≠ .error .preconditionError := by
  refine ⟨?_, ?_, ?_, ?_⟩
  · simp [delete_app, h]
  · rcases hg : getPod st ns (appId ++ "-driver") with _ | p
    · rw [app_status, hg] at h
      exact absurd h (by simp [SparkAppStatus.isTerminal])
    · rfl
  · intro st'
    simp [delete_app, h]
  · simp [delete_app]

/-- Witness for C7 on concrete clusters holding a non-terminal driver pod
and its paired service: once with a `Running` pod and once with a `Pending`
(`Waiting`) pod. -/
theorem delete_app_precondition_witness :
    (app_status ⟨[⟨"spark", "app1-driver", [("spark-role", "driver")], "Running"⟩],
                 [("spark", "app1")]⟩ "spark" "app1").isTerminal = false ∧
    delete_app ⟨[⟨"spark", "app1-driver", [("spark-role", "driver")], "Running"⟩],
                [("spark", "app1")]⟩ "spark" "app1" false = .error .preconditionError ∧
    (getPod ⟨[⟨"spark", "app1-driver", [("spark-role", "driver")], "Running"⟩],
             [("spark", "app1")]⟩ "spark" "app1-driver").isSome ∧
    (app_status ⟨[⟨"spark", "app2-driver", [("spark-role", "driver")], "Pending"⟩],
                 [("spark", "app2")]⟩ "spark" "app2").isTerminal = false ∧
    delete_app ⟨[⟨"spark", "app2-driver", [("spark-role", "driver")], "Pending"⟩],
                [("spark", "app2")]⟩ "spark" "app2" false = .error .preconditionError := by
  have h1 := delete_app_precondition
    ⟨[⟨"spark", "app1-driver", [("spark-role", "driver")], "Running"⟩], [("spark", "app1")]⟩
    "spark" "app1" (by decide)
  have h2 := delete_app_precondition
    ⟨[⟨"spark", "app2-driver", [("spark-role", "driver")], "Pending"⟩], [("spark", "app2")]⟩
    "spark" "app2" (by decide)
  exact ⟨by decide, h1.1, h1.2.1, by decide, h2.1⟩

/-- C9: in the CLI `submit` command, the `logs` flag takes precedence over
the `wait` flag when selecting the post-submission behavior mode: the mode
is `"print"` whenever `logs` is set, otherwise `"wait"` when `wait` is set,
otherwise `"no_wait"`. -/
theorem submit_logs_flag_precedence :
    submitAppWaiterMode true true = "print" ∧
    submitAppWaiterMode true false = "print" ∧
    submitAppWaiterMode false true = "wait" ∧
    submitAppWaiterMode false false = "no_wait" := by
  decide

end SparkOnK8S
